import Mathlib

/-
Verification of the pagination/aggregation core of the json_agent package
(topdesk_service.py, zenya_service.py, root_agent.py) against its
specification.  The Python code is shallowly embedded: JSON values become an
inductive type, HTTP backends become functions from request data to
responses, the unbounded `while` loops become fuel-indexed recursions that
return `none` when the fuel runs out, and raised Python exceptions become
`Except` errors.
-/

/-- JSON-like values manipulated by the services: Python dicts, lists,
strings, ints, booleans and `None`. -/
inductive Json where
  | null
  | bool (b : Bool)
  | num (n : Int)
  | str (s : String)
  | arr (elems : List Json)
  | obj (fields : List (String × Json))

/-- First-match association-list lookup, modelling key access on the Python
dict literals produced by the services (whose keys are distinct). -/
def Json.lookup : List (String × Json) → String → Option Json
  | [], _ => none
  | (k, v) :: rest, key => if k = key then some v else Json.lookup rest key

/-- Keys of a JSON object, in insertion order (Python `dict.keys()`). -/
def Json.keys : Json → List String
  | .obj kvs => kvs.map Prod.fst
  | _ => []

/-- Field access on an object, `none` when the value is not an object or the
key is absent. -/
def Json.field (j : Json) (key : String) : Option Json :=
  match j with
  | .obj kvs => Json.lookup kvs key
  | _ => none

/-- Python truthiness of a JSON value: None, False, 0, "", [] and the empty
dict are falsy, everything else is truthy. -/
def Json.truthy : Json → Bool
  | .null => false
  | .bool b => b
  | .num n => !(n == 0)
  | .str s => !(s == "")
  | .arr elems => !elems.isEmpty
  | .obj fields => !fields.isEmpty

/-- Python exceptions surfaced by the embedded code. -/
inductive PyErr where
  | attributeError (name : String)
  | nameError (name : String)
  | keyError (key : String)
  | typeError (msg : String)
  | jsonDecodeError
  | exc (msg : String)

/-- Rendering used where the Python code interpolates `str(e)` into a
sentinel message. -/
def PyErr.toMsg : PyErr → String
  | .attributeError n => "'TopdeskService' object has no attribute '" ++ n ++ "'"
  | .nameError n => "name '" ++ n ++ "' is not defined"
  | .keyError k => "'" ++ k ++ "'"
  | .typeError m => m
  | .jsonDecodeError => "Expecting value"
  | .exc m => m

/-- Python `d.get(key, default)`: total on dicts, AttributeError on anything
else (non-dicts have no `.get`). -/
def Json.dictGet : Json → String → Json → Except PyErr Json
  | .obj kvs, key, dflt => .ok ((Json.lookup kvs key).getD dflt)
  | _, _, _ => .error (.attributeError "get")

/-- Python `d[key]`: KeyError when the key is absent, TypeError when the
value is not a dict. -/
def Json.index : Json → String → Except PyErr Json
  | .obj kvs, key =>
    match Json.lookup kvs key with
    | some v => .ok v
    | none => .error (.keyError key)
  | _, key => .error (.typeError ("value is not subscriptable by " ++ key))

/-- Loop body of `get_nested_value` (zenya_service.py lines 293-300): descend
one key at a time; when the current value is not a dict or lacks the key the
whole resolution yields None. -/
def get_nested_value_go : Json → List String → Option Json
  | cur, [] => some cur
  | cur, key :: rest =>
    match cur with
    | .obj kvs =>
      match Json.lookup kvs key with
      | some nxt => get_nested_value_go nxt rest
      | none => none
    | _ => none

/-- `get_nested_value` (zenya_service.py lines 282-300).  The `path` argument
models the Python parameter: `none` is Python `None`, `some []` the empty
list; both are falsy, so the guard `if not path: return None` fires before
the loop. -/
def get_nested_value (item : Json) (path : Option (List String)) : Option Json :=
  match path with
  | none => none
  | some [] => none
  | some p => get_nested_value_go item p

/-- A nonempty path fully present in a record: every step descends through a
dict that has the key, ending at the leaf value. -/
inductive ResolvesTo : Json → List String → Json → Prop where
  | last {kvs key v} (h : Json.lookup kvs key = some v) :
      ResolvesTo (.obj kvs) [key] v
  | step {kvs key nxt rest v} (h : Json.lookup kvs key = some nxt)
      (tail : ResolvesTo nxt rest v) : ResolvesTo (.obj kvs) (key :: rest) v

/-- Value of an HTTP query parameter. -/
inductive ParamVal where
  | int (n : Int)
  | str (s : String)

/-- A Python dict of query parameters, in insertion order. -/
abbrev Params := List (String × ParamVal)

/-- Lookup of a query parameter (Python `params.get(key)` / `params[key]`). -/
def Params.get : Params → String → Option ParamVal
  | [], _ => none
  | (k, v) :: rest, key => if k = key then some v else Params.get rest key

/-- Python `params.get(key, default)` when an int is expected. -/
def Params.getIntD (ps : Params) (key : String) (dflt : Int) : Int :=
  match Params.get ps key with
  | some (.int n) => n
  | _ => dflt

/-- Python `params[key] = v`: overwrite in place when the key exists (keeping
its position, as dicts do), append otherwise. -/
def Params.set (ps : Params) (key : String) (v : ParamVal) : Params :=
  if (ps.map Prod.fst).contains key then
    ps.map (fun kv => if kv.fst = key then (key, v) else kv)
  else ps ++ [(key, v)]

/-- An HTTP response: status code, raw body text, and the result of
`response.json()` — `none` models a `json.JSONDecodeError`. -/
structure HttpResponse where
  status : Nat
  text : String
  body : Option Json

/-- Outcome of `TopdeskService._load_paginated_data`: the aggregated item
list, the deliberately raised `Exception(f"API request failed: status -
text")` carrying the status code and the response body, or another exception
escaping the loop uncaught — the `try` on lines 97-116 catches only
`json.JSONDecodeError`, so e.g. the TypeError of `items.extend` on a
non-iterable body propagates to the caller. -/
inductive FetchResult where
  | ok (items : List Json)
  | err (status : Nat) (text : String)
  | raised (e : PyErr)

/-- Python iteration as performed by `items.extend(x)` (topdesk_service.py
line 104): a list contributes its elements, a string its one-character
strings, a dict its keys; None, numbers and booleans are not iterable and
raise TypeError. -/
def iterElems : Json → Except PyErr (List Json)
  | .arr xs => .ok xs
  | .str s => .ok (s.toList.map (fun c => Json.str c.toString))
  | .obj kvs => .ok (kvs.map (fun kv => Json.str kv.fst))
  | _ => .error (.typeError "argument is not iterable")

/-- The page's records (topdesk_service.py lines 100 and 104):
`new_items = data.get("item", []) if isinstance(data, dict) else data`
followed by `items.extend(new_items)`.  A dict body contributes whatever sits
under "item" (default `[]`), any other body contributes itself; the
contribution is then iterated by `extend`, raising TypeError when it is not
iterable. -/
def extractItems (data : Json) : Except PyErr (List Json) :=
  match data with
  | .obj kvs => iterElems ((Json.lookup kvs "item").getD (.arr []))
  | _ => iterElems data

/-- Cursor advance (topdesk_service.py line 113):
`params["start"] = params.get("start", 0) + params.get("page_size", 1000)`. -/
def advanceStart (params : Params) : Params :=
  params.set "start" (.int (params.getIntD "start" 0 + params.getIntD "page_size" 1000))

/-- The guard `limit is not None and len(items) >= limit` (topdesk_service.py
line 106, zenya_service.py lines 165 and 331). -/
def capReached (limit : Option Nat) (n : Nat) : Bool :=
  match limit with
  | some l => decide (l ≤ n)
  | none => false

/-- Python `items[:limit]` (topdesk_service.py line 107); only evaluated when
`limit` is set. -/
def truncateTo (limit : Option Nat) (items : List Json) : List Json :=
  match limit with
  | some l => items.take l
  | none => items

/-- `TopdeskService._load_paginated_data` (topdesk_service.py lines 73-120).
The backend function abstracts `requests.get` on the fixed endpoint: it maps
the query parameters of a request to the response.  Fuel bounds the number of
iterations of the `while True` loop; `none` means the loop is still running.
On a 200/206 page the body is parsed (a parse failure is only logged and the
accumulated items are returned), items are appended, a reached limit returns
the accumulator truncated to the limit, status 200 ends the walk, status 206
advances `start` and continues; any other status raises. -/
def load_paginated_data (backend : Params → HttpResponse) :
    Nat → Params → Option Nat → List Json → Option FetchResult
  | 0, _, _, _ => none
  | fuel + 1, params, limit, items =>
    let response := backend params
    if response.status = 200 ∨ response.status = 206 then
      match response.body with
      | none => some (.ok items)
      | some data =>
        match extractItems data with
        | .error e => some (.raised e)
        | .ok new_items =>
          let items := items ++ new_items
          if capReached limit items.length then some (.ok (truncateTo limit items))
          else if response.status = 200 then some (.ok items)
          else load_paginated_data backend fuel (advanceStart params) limit items
    else some (.err response.status response.text)

/-- Substring matching at the head of a character list. -/
def strMatchAt : List Char → List Char → Bool
  | [], _ => true
  | _ :: _, [] => false
  | p :: ps, c :: cs => p == c && strMatchAt ps cs

/-- Helper for `strContains`: does `pat` match at any position? -/
def strContainsAux (pat : List Char) : List Char → Bool
  | [] => strMatchAt pat []
  | c :: cs => strMatchAt pat (c :: cs) || strContainsAux pat cs

/-- Python's substring test `pat in s`. -/
def strContains (s pat : String) : Bool :=
  strContainsAux pat.toList s.toList

/-- Default of the `page_size` parameter in the signatures of
`load_modification_date` (line 150) and `load_incidents` (line 223). -/
def topdesk_default_page_size : Nat := 1000

/-- Query-parameter dict built by `load_modification_date` (topdesk_service.py
lines 169-179): `{"fields", "page_size", "start": 0}`, a truthy `query` is
added under "query", and `public_only` appends the visibility clause with
`and` to any existing query (also forcing the visibility field into
`fields`). -/
def load_modification_date_params (fields : String) (query : Option String)
    (page_size : Nat) (public_only : Bool) : Params :=
  let fields := if public_only && !(strContains fields "visibility")
    then fields ++ ",visibility" else fields
  let params : Params :=
    [("fields", .str fields), ("page_size", .int page_size), ("start", .int 0)]
  let params := match query with
    | some q => if q = "" then params else params.set "query" (.str q)
    | none => params
  if public_only then
    let public_query := "visibility.publicKnowledgeItem==true"
    match params.get "query" with
    | some (.str q) =>
      if q = "" then params.set "query" (.str public_query)
      else params.set "query" (.str (q ++ " and " ++ public_query))
    | _ => params.set "query" (.str public_query)
  else params

/-- `load_modification_date` (lines 149-182): builds its params and delegates
to the paginated walker on the knowledgeItems endpoint. -/
def load_modification_date (backend : Params → HttpResponse) (fuel : Nat)
    (limit : Option Nat) (fields : String) (query : Option String)
    (page_size : Nat) (public_only : Bool) : Option FetchResult :=
  load_paginated_data backend fuel
    (load_modification_date_params fields query page_size public_only) limit []

/-- Query-parameter dict built by `load_incidents` (topdesk_service.py lines
239-244): `{"page_size", "start": 0}` plus truthy `query` and `fields`. -/
def load_incidents_params (query : Option String) (fields : Option String)
    (page_size : Nat) : Params :=
  let params : Params := [("page_size", .int page_size), ("start", .int 0)]
  let params := match query with
    | some q => if q = "" then params else params.set "query" (.str q)
    | none => params
  match fields with
  | some f => if f = "" then params else params.set "fields" (.str f)
  | none => params

/-- `load_incidents` (lines 223-250): builds its params and delegates to the
paginated walker on the incidents endpoint. -/
def load_incidents (backend : Params → HttpResponse) (fuel : Nat)
    (query : Option String) (fields : Option String) (limit : Option Nat)
    (page_size : Nat) : Option FetchResult :=
  load_paginated_data backend fuel (load_incidents_params query fields page_size) limit []

/-- Instance state of `TopdeskService` after `__init__` (lines 13-31): it sets
exactly the attributes `api_key`, `api_url` and `token`. -/
structure TopdeskService where
  api_key : String
  api_url : String
  token : String

/-- Dynamic attribute lookup `self.<name>` on a `TopdeskService` instance:
any name other than the three set in `__init__` raises AttributeError.  In
particular `self.base_url` (line 124) and `self.logger` (line 144) do. -/
def TopdeskService.getattr (svc : TopdeskService) (name : String) :
    Except PyErr String :=
  if name = "api_key" then .ok svc.api_key
  else if name = "api_url" then .ok svc.api_url
  else if name = "token" then .ok svc.token
  else .error (.attributeError name)

/-- Module-level names defined in topdesk_service.py.  Evaluating any other
name raises NameError; the misspelt `Bone` on line 137 is not among them. -/
def topdeskModuleGlobals : List String :=
  ["os", "requests", "load_dotenv", "logging", "json", "List", "Dict", "Any",
   "logger", "TopdeskService"]

/-- Resolution of a global name inside topdesk_service.py. -/
def resolveGlobal (name : String) : Except PyErr Unit :=
  if topdeskModuleGlobals.contains name then .ok () else .error (.nameError name)

/-- `TopdeskService.load_knowledge_items` (topdesk_service.py lines 122-147),
together with the number of HTTP requests it issues.  Its first statement
reads `self.base_url`, an attribute `__init__` never sets, so it raises
AttributeError before anything else; even if it got past that, the dict
comprehension on line 137 evaluates the undefined name `Bone` (NameError)
before `requests.get` on line 139, and the non-200 branch reads the missing
attribute `self.logger` (line 144). -/
def load_knowledge_items (svc : TopdeskService) (backend : Params → HttpResponse)
    (limit : Int) (search_term : Option String) (query : Option String)
    (fields : Option String) : Except PyErr Json × Nat :=
  match svc.getattr "base_url" with
  | .error e => (.error e, 0)
  | .ok _ =>
    let params0 : List (String × Option ParamVal) :=
      [("page_size", some (.int limit)),
       ("searchTerm", search_term.map ParamVal.str),
       ("query", query.map ParamVal.str),
       ("fields", fields.map ParamVal.str)]
    match resolveGlobal "Bone" with
    | .error e => (.error e, 0)
    | .ok _ =>
      let params : Params := params0.filterMap (fun kv => kv.2.map (fun v => (kv.1, v)))
      let response := backend params
      if response.status ≠ 200 then
        match svc.getattr "logger" with
        | .error e => (.error e, 1)
        | .ok _ => (.error (.exc ("API request failed: " ++ toString response.status
            ++ " - " ++ response.text)), 1)
      else
        match response.body with
        | some j => (.ok j, 1)
        | none => (.error .jsonDecodeError, 1)

/-- Tool `get_knowledge_items` (root_agent.py lines 17-32) and the number of
HTTP requests issued on its behalf: any exception is converted into a
one-element error-sentinel list. -/
def get_knowledge_items (svc : TopdeskService) (backend : Params → HttpResponse)
    (limit : Int) : Json × Nat :=
  match load_knowledge_items svc backend limit none none none with
  | (.ok items, n) => (items, n)
  | (.error e, n) =>
    (.arr [.obj [("error", .str ("Kon knowledge items niet ophalen: " ++ e.toMsg))]], n)

/-- Tool `get_public_knowledge_items` (root_agent.py lines 34-48).  The
`public_only=True` keyword lands in `load_knowledge_items`' unused `**kwargs`
(only `kwargs.get('fields')` is ever read), so the call shape is the same as
`get_knowledge_items`; only the sentinel message differs. -/
def get_public_knowledge_items (svc : TopdeskService)
    (backend : Params → HttpResponse) (limit : Int) : Json × Nat :=
  match load_knowledge_items svc backend limit none none none with
  | (.ok items, n) => (items, n)
  | (.error e, n) =>
    (.arr [.obj [("error", .str ("Kon publieke knowledge items niet ophalen: " ++ e.toMsg))]], n)

/-- Tool `search_knowledge_items` (root_agent.py lines 69-93): passes the
search term and a fields list; an empty result yields a message sentinel,
an exception an error sentinel (both one-element lists). -/
def search_knowledge_items (svc : TopdeskService) (backend : Params → HttpResponse)
    (search_term : String) (limit : Int) : Json × Nat :=
  match load_knowledge_items svc backend limit (some search_term) none
      (some "title,description,keywords,creationDate,modificationDate") with
  | (.ok items, n) =>
    (if items.truthy then items
     else .arr [.obj [("message", .str ("Geen kennisartikelen gevonden die '"
       ++ search_term ++ "' bevatten."))]], n)
  | (.error e, n) =>
    (.arr [.obj [("error", .str ("Kon knowledge items niet doorzoeken met zoekterm '"
      ++ search_term ++ "': " ++ e.toMsg))]], n)

/-- `TopdeskService.load_knowledge_item_by_identifier` (topdesk_service.py
lines 184-221), applied to the response the backend gives for the requested
identifier: 200 parses and returns the item (`response.json()` raising on a
malformed body), 404 and 400 return Python `None`, anything else raises an
Exception carrying status code and body. -/
def load_knowledge_item_by_identifier (response : HttpResponse) :
    Except PyErr (Option Json) :=
  if response.status = 200 then
    match response.body with
    | some data => .ok (some data)
    | none => .error .jsonDecodeError
  else if response.status = 404 then .ok none
  else if response.status = 400 then .ok none
  else .error (.exc ("API request failed: " ++ toString response.status
    ++ " - " ++ response.text))

/-- Tool `get_knowledge_item_by_id` (root_agent.py lines 50-67): a falsy or
missing item yields the "niet gevonden" sentinel, an exception the error
sentinel; the tool itself never raises. -/
def get_knowledge_item_by_id (response : HttpResponse) (identifier : String) : Json :=
  match load_knowledge_item_by_identifier response with
  | .ok (some item) =>
    if item.truthy then item
    else .obj [("error", .str ("Knowledge item met ID " ++ identifier ++ " niet gevonden"))]
  | .ok none =>
    .obj [("error", .str ("Knowledge item met ID " ++ identifier ++ " niet gevonden"))]
  | .error e =>
    .obj [("error", .str ("Kon knowledge item " ++ identifier ++ " niet ophalen: " ++ e.toMsg))]

/-- FIQL query construction inside `get_incidents_by_caller` (root_agent.py
lines 170-176): conjunction of the caller clause and the status clause;
the literal string "open" selects the not-in clause, every other status the
in clause. -/
def get_incidents_by_caller_query (caller_email : String) (status : String) : String :=
  let status_query :=
    if status = "open" then "processingStatus.name!=in=(Afgehandeld,Gesloten)"
    else "processingStatus.name==in=(Afgehandeld,Gesloten)"
  "caller.emailAddress=='" ++ caller_email ++ "' and " ++ status_query

/-- Document record construction in `ZenyaService.collect_documents`
(zenya_service.py lines 154-163): `item["source_item_id"]`, `item["title"]`,
`item["sub_type_field"]["name"]` and `item["sub_type_field"]["value_id"]`
raise KeyError/TypeError when absent; `item.get("last_modified_date_time")`
yields None (null) when absent. -/
def documentRecord (item : Json) : Except PyErr Json :=
  match item.index "source_item_id" with
  | .error e => .error e
  | .ok sid =>
  match item.index "title" with
  | .error e => .error e
  | .ok title =>
  match item.index "sub_type_field" with
  | .error e => .error e
  | .ok stf =>
  match stf.index "name" with
  | .error e => .error e
  | .ok name =>
  match stf.index "value_id" with
  | .error e => .error e
  | .ok vid =>
  match item.dictGet "last_modified_date_time" .null with
  | .error e => .error e
  | .ok lm =>
    .ok (.obj [("source_item_id", sid), ("title", title), ("doc_type", name),
               ("doc_type_id", vid), ("last_modified_date_time", lm)])

/-- Inner for-loop of `collect_documents` (lines 154-163): every item of the
page is appended before any cap check happens. -/
def appendDocuments : List Json → List Json → Except PyErr (List Json)
  | docs, [] => .ok docs
  | docs, item :: rest =>
    match documentRecord item with
    | .error e => .error e
    | .ok r => appendDocuments (docs ++ [r]) rest

/-- Page loop of `ZenyaService.collect_documents` (zenya_service.py lines
141-174).  `loadContent limit offset` abstracts `self.load_content`, which
returns the parsed body of a 200 response and raises otherwise.  The page
size variable `limit` of the source is fixed at 50 (line 143).  An empty (or
otherwise falsy) "data" payload ends the walk; after appending a whole page
the cap check `len(documents) >= max_results` merely breaks — the list is
returned without truncation.  Fuel bounds the loop; `none` means it is still
running. -/
def collect_documents_loop (loadContent : Nat → Nat → Except PyErr Json)
    (max_results : Option Nat) :
    Nat → Nat → List Json → Option (Except PyErr (List Json))
  | 0, _, _ => none
  | fuel + 1, offset, documents =>
    match loadContent 50 offset with
    | .error e => some (.error e)
    | .ok data =>
      match data.dictGet "data" (.arr []) with
      | .error e => some (.error e)
      | .ok itemsJ =>
        if !itemsJ.truthy then some (.ok documents)
        else
          match itemsJ with
          | .arr items =>
            match appendDocuments documents items with
            | .error e => some (.error e)
            | .ok documents =>
              if capReached max_results documents.length then some (.ok documents)
              else collect_documents_loop loadContent max_results fuel (offset + 50) documents
          | _ => some (.error (.typeError "value under data is not iterable"))

/-- `ZenyaService.collect_documents` (lines 127-174): the walk starts at
offset 0 with an empty accumulator. -/
def collect_documents (loadContent : Nat → Nat → Except PyErr Json)
    (max_results : Option Nat) (fuel : Nat) : Option (Except PyErr (List Json)) :=
  collect_documents_loop loadContent max_results fuel 0 []

/-- The extraction configuration of `collect_dedicated_search_results`
(zenya_service.py lines 252-264): field names for id/title, optional paths
for the four path-resolved fields, and whether the module logger is at DEBUG
level (line 327). -/
structure SearchCfg where
  id_field : String
  title_field : String
  type_field_path : Option (List String)
  doc_type_path : Option (List String)
  doc_type_id_path : Option (List String)
  modified_date_path : Option (List String)
  debugLogging : Bool

/-- The isinstance check of zenya_service.py lines 314-317: a non-list value
under "items" is logged and replaced by the empty list. -/
def coerceItems : Json → List Json
  | .arr xs => xs
  | _ => []

/-- Construction of `processed_item` (zenya_service.py lines 320-328).
`item.get` requires a dict (AttributeError otherwise); a missing key or an
unset/unresolvable path stores Python None, i.e. null. -/
def processSearchItem (cfg : SearchCfg) (item : Json) : Except PyErr Json :=
  match item.dictGet cfg.id_field .null with
  | .error e => .error e
  | .ok sid =>
  match item.dictGet cfg.title_field .null with
  | .error e => .error e
  | .ok title =>
  .ok (.obj
    [("source_item_id", sid),
     ("title", title),
     ("type", (get_nested_value item cfg.type_field_path).getD .null),
     ("doc_type", (get_nested_value item cfg.doc_type_path).getD .null),
     ("doc_type_id", (get_nested_value item cfg.doc_type_id_path).getD .null),
     ("last_modified_date_time", (get_nested_value item cfg.modified_date_path).getD .null),
     ("raw_item_details_for_debug",
        if cfg.debugLogging then item else .str "Set logger to DEBUG")])

/-- Inner for-loop of `collect_dedicated_search_results` (lines 319-333):
process the page's items in order, appending each to `search_results`; as
soon as `max_results` is reached, clear `has_more_pages` and break, leaving
the rest of the page unprocessed.  Returns the grown accumulator and the
`has_more_pages` flag. -/
def processSearchPage (cfg : SearchCfg) (max_results : Option Nat) :
    List Json → List Json → Except PyErr (List Json × Bool)
  | [], results => .ok (results, true)
  | item :: rest, results =>
    match processSearchItem cfg item with
    | .error e => .error e
    | .ok r =>
      let results := results ++ [r]
      if capReached max_results results.length then .ok (results, false)
      else processSearchPage cfg max_results rest results

/-- Page loop of `ZenyaService.collect_dedicated_search_results`
(zenya_service.py lines 302-355).  The backend function abstracts
`execute_dedicated_search` at the fixed query/portal/scope/collection
arguments: it maps the current continuation token (initially Python None,
i.e. null) to the parsed response, or to the exception raised on a non-200
status.  Items live under "items" (a non-list payload is logged and replaced
by `[]`, line 315-317); the next token is
`data.get("continuationToken", data.get("nextContinuationToken"))` and the
walk continues exactly when it is truthy — which also subsumes the redundant
final check on line 347.  Fuel bounds the loop. -/
def collect_dedicated_search_results (backend : Json → Except PyErr Json)
    (cfg : SearchCfg) (max_results : Option Nat) :
    Nat → Json → List Json → Option (Except PyErr (List Json))
  | 0, _, _ => none
  | fuel + 1, token, results =>
    match backend token with
    | .error e => some (.error e)
    | .ok data =>
      match data.dictGet "items" (.arr []) with
      | .error e => some (.error e)
      | .ok itemsJ =>
        let items := coerceItems itemsJ
        match processSearchPage cfg max_results items results with
        | .error e => some (.error e)
        | .ok (results, has_more_pages) =>
          if !has_more_pages then some (.ok results)
          else
            match data.dictGet "nextContinuationToken" .null with
            | .error e => some (.error e)
            | .ok fallback =>
              match data.dictGet "continuationToken" fallback with
              | .error e => some (.error e)
              | .ok next_token_candidate =>
                if next_token_candidate.truthy then
                  collect_dedicated_search_results backend cfg max_results fuel
                    next_token_candidate results
                else some (.ok results)

/-- The configuration with which the tool `search_zenya_documents`
(root_agent.py lines 241-246) reaches `collect_dedicated_search_results`: it
supplies only query, max_results and portal_id, so `id_field` and
`title_field` keep their string defaults and the four paths keep their None
defaults (zenya_service.py lines 258-263); the module logger is not at DEBUG
level. -/
def search_zenya_documents_cfg : SearchCfg :=
  { id_field := "source_item_id", title_field := "title",
    type_field_path := none, doc_type_path := none,
    doc_type_id_path := none, modified_date_path := none,
    debugLogging := false }

/-- Tool `search_zenya_documents` (root_agent.py lines 229-252).  The query
and portal_id arguments are folded into the backend abstraction; an empty
result list yields the message sentinel, an exception the error sentinel
(both one-element lists). -/
def search_zenya_documents (backend : Json → Except PyErr Json) (query : String)
    (max_results : Nat) (fuel : Nat) : Option Json :=
  match collect_dedicated_search_results backend search_zenya_documents_cfg
      (some max_results) fuel .null [] with
  | none => none
  | some (.error e) =>
    some (.arr [.obj [("error", .str ("Kon Zenya documenten niet doorzoeken met '"
      ++ query ++ "': " ++ e.toMsg))]])
  | some (.ok results) =>
    if results.isEmpty then
      some (.arr [.obj [("message", .str ("Geen documenten gevonden voor zoekterm '"
        ++ query ++ "'."))]])
    else some (.arr results)

/-- The four path-resolved fields of a normalized search record are bound to
null. -/
def fourPathFieldsNull (r : Json) : Prop :=
  r.field "type" = some .null ∧ r.field "doc_type" = some .null ∧
  r.field "doc_type_id" = some .null ∧ r.field "last_modified_date_time" = some .null

/-- Well-formed document item used in concrete backend fixtures. -/
def c1Item (s : String) : Json :=
  .obj [("source_item_id", .str s), ("title", .str s),
        ("sub_type_field", .obj [("name", .str "werkinstructie"), ("value_id", .num 7)])]

/-- Fixture backend for `collect_documents`: the first content page (offset 0)
holds two well-formed documents, every later page is empty. -/
def c1LoadContent : Nat → Nat → Except PyErr Json := fun _ offset =>
  if offset = 0 then .ok (.obj [("data", .arr [c1Item "a", c1Item "b"])])
  else .ok (.obj [("data", .arr [])])

/-- Fixture backend for the dedicated search walker: the first page carries
zero items but a continuation token; the second page carries one item and no
token. -/
def c2Backend : Json → Except PyErr Json := fun token =>
  if token.truthy then
    .ok (.obj [("items", .arr [.obj [("source_item_id", .str "after-empty")]])])
  else
    .ok (.obj [("items", .arr []), ("continuationToken", .str "t1")])

/-- Topdesk fixture: a single 200 page whose "item" list is empty. -/
def c2wTopdesk : Params → HttpResponse := fun _ =>
  { status := 200, text := "", body := some (.obj [("item", .arr [])]) }

/-- Topdesk fixture: every page is a 206 whose "item" list is empty. -/
def c2wTopdesk206 : Params → HttpResponse := fun _ =>
  { status := 206, text := "", body := some (.obj [("item", .arr [])]) }

/-- Content fixture: every page has an empty "data" list. -/
def c2wLoadContent : Nat → Nat → Except PyErr Json := fun _ _ =>
  .ok (.obj [("data", .arr [])])

/-- Search fixture: every page has an empty "items" list and no token. -/
def c2wSearch : Json → Except PyErr Json := fun _ =>
  .ok (.obj [("items", .arr [])])

/-- Topdesk fixture: a 206 page whose body fails to parse. -/
def c4wParseFail : Params → HttpResponse := fun _ =>
  { status := 206, text := "<html>", body := none }

/-- Topdesk fixture: a 500 response. -/
def c4wServerError : Params → HttpResponse := fun _ =>
  { status := 500, text := "boom", body := none }

/-- Probe backend: it answers every request with status 999 and echoes the
issued `page_size` query parameter in the response text, so the raised
`FetchResult.err` exhibits the page size that the request carried. -/
def pageSizeProbe : Params → HttpResponse := fun params =>
  { status := 999, text := Nat.repr (params.getIntD "page_size" 1000).toNat, body := none }

/-- Search fixture: one page with a single item and no continuation token. -/
def c10Backend : Json → Except PyErr Json := fun _ =>
  .ok (.obj [("items", .arr [.obj [("source_item_id", .str "1")]])])

/-- The record the dedicated search walker builds for the single item of
`c10Backend` under the configuration of `search_zenya_documents`. -/
def c10Record : Json :=
  .obj [("source_item_id", .str "1"), ("title", .null), ("type", .null),
        ("doc_type", .null), ("doc_type_id", .null),
        ("last_modified_date_time", .null),
        ("raw_item_details_for_debug", .str "Set logger to DEBUG")]

/-- Sample nested record for exercising `get_nested_value`. -/
def c8Sample : Json :=
  .obj [("details", .obj [("contact", .obj [("email", .str "x@y")])]),
        ("flat", .str "leaf")]

theorem get_nested_value_go_sound {item : Json} {p : List String} {v : Json}
    (h : ResolvesTo item p v) : get_nested_value_go item p = some v := by
  induction h with
  | last h => simp [get_nested_value_go, h]
  | step h _ ih => simp [get_nested_value_go, h, ih]

theorem get_nested_value_go_complete : ∀ (p : List String) (item v : Json),
    p ≠ [] → get_nested_value_go item p = some v → ResolvesTo item p v := by
  intro p
  induction p with
  | nil => intro item v h; exact absurd rfl h
  | cons key rest ih =>
    intro item v _ hgo
    cases item with
    | obj kvs =>
      simp only [get_nested_value_go] at hgo
      cases hlk : Json.lookup kvs key with
      | none => rw [hlk] at hgo; exact absurd hgo (by simp)
      | some nxt =>
        rw [hlk] at hgo
        cases rest with
        | nil =>
          simp only [get_nested_value_go] at hgo
          exact ResolvesTo.last (hgo ▸ hlk)
        | cons r rs =>
          exact ResolvesTo.step hlk (ih nxt v (by simp) hgo)
    | null => simp [get_nested_value_go] at hgo
    | bool b => simp [get_nested_value_go] at hgo
    | num n => simp [get_nested_value_go] at hgo
    | str s => simp [get_nested_value_go] at hgo
    | arr elems => simp [get_nested_value_go] at hgo

theorem params_get_map_replace (key k' : String) (v : ParamVal) (h : key ≠ k') :
    ∀ ps : Params,
      Params.get (ps.map (fun kv => if kv.fst = key then (key, v) else kv)) k'
        = Params.get ps k' := by
  intro ps
  induction ps with
  | nil => rfl
  | cons kv rest ih =>
    obtain ⟨a, b⟩ := kv
    by_cases ha : a = key
    · subst ha
      simp only [List.map_cons, if_pos rfl]
      simp [Params.get, h, ih]
    · simp only [List.map_cons, if_neg ha]
      by_cases hk : a = k'
      · simp [Params.get, hk]
      · simp [Params.get, hk, ih]

theorem params_get_append_ne (key k' : String) (v : ParamVal) (h : key ≠ k') :
    ∀ ps : Params, Params.get (ps ++ [(key, v)]) k' = Params.get ps k' := by
  intro ps
  induction ps with
  | nil => simp [Params.get, h]
  | cons kv rest ih =>
    obtain ⟨a, b⟩ := kv
    by_cases hk : a = k' <;> simp [Params.get, hk, ih]

theorem params_get_set_ne (ps : Params) (key k' : String) (v : ParamVal) (h : key ≠ k') :
    Params.get (ps.set key v) k' = Params.get ps k' := by
  unfold Params.set
  by_cases hc : (ps.map Prod.fst).contains key = true
  · rw [if_pos hc, params_get_map_replace key k' v h ps]
  · rw [if_neg hc, params_get_append_ne key k' v h ps]

theorem ldm_params_page_size (fields : String) (query : Option String)
    (page_size : Nat) (public_only : Bool) :
    Params.get (load_modification_date_params fields query page_size public_only)
      "page_size" = some (.int page_size) := by
  have hq : ("query" : String) ≠ "page_size" := by decide
  unfold load_modification_date_params
  cases public_only with
  | false =>
    cases query with
    | none => rfl
    | some q =>
      by_cases hqe : q = "" <;>
        simp [hqe, Params.get, Params.set,
              params_get_set_ne _ "query" "page_size" _ hq]
  | true =>
    cases query with
    | none =>
      simp [Params.get, Params.set,
            params_get_set_ne _ "query" "page_size" _ hq]
    | some q =>
      by_cases hqe : q = "" <;>
        simp [hqe, Params.get, Params.set,
              params_get_set_ne _ "query" "page_size" _ hq]

theorem li_params_page_size (query fields : Option String) (page_size : Nat) :
    Params.get (load_incidents_params query fields page_size) "page_size"
      = some (.int page_size) := by
  have hq : ("query" : String) ≠ "page_size" := by decide
  have hf : ("fields" : String) ≠ "page_size" := by decide
  unfold load_incidents_params
  cases query with
  | none =>
    cases fields with
    | none => rfl
    | some f =>
      by_cases hfe : f = "" <;>
        simp [hfe, Params.get, Params.set,
              params_get_set_ne _ "fields" "page_size" _ hf]
  | some q =>
    cases fields with
    | none =>
      by_cases hqe : q = "" <;>
        simp [hqe, Params.get, Params.set,
              params_get_set_ne _ "query" "page_size" _ hq]
    | some f =>
      by_cases hqe : q = "" <;> by_cases hfe : f = "" <;>
        simp [hqe, hfe, Params.get, Params.set,
              params_get_set_ne _ "query" "page_size" _ hq,
              params_get_set_ne _ "fields" "page_size" _ hf]

theorem probe_first_request (ps : Params) (n : Nat)
    (h : Params.get ps "page_size" = some (.int n)) :
    load_paginated_data pageSizeProbe 1 ps none [] = some (.err 999 (Nat.repr n)) := by
  simp [load_paginated_data, pageSizeProbe, Params.getIntD, h]

theorem processSearchItem_nonepaths_null {item r : Json}
    (h : processSearchItem search_zenya_documents_cfg item = .ok r) :
    fourPathFieldsNull r := by
  cases item with
  | obj kvs =>
    simp only [processSearchItem, Json.dictGet, search_zenya_documents_cfg] at h
    cases h
    simp [fourPathFieldsNull, Json.field, Json.lookup, get_nested_value]
  | null => simp [processSearchItem, Json.dictGet] at h
  | bool b => simp [processSearchItem, Json.dictGet] at h
  | num n => simp [processSearchItem, Json.dictGet] at h
  | str s => simp [processSearchItem, Json.dictGet] at h
  | arr elems => simp [processSearchItem, Json.dictGet] at h

theorem processSearchPage_mem {mx : Option Nat} :
    ∀ (items results out : List Json) (b : Bool),
      processSearchPage search_zenya_documents_cfg mx items results = .ok (out, b) →
      ∀ r ∈ out, r ∈ results ∨ fourPathFieldsNull r := by
  intro items
  induction items with
  | nil =>
    intro results out b h r hr
    simp only [processSearchPage] at h
    cases h
    exact Or.inl hr
  | cons item rest ih =>
    intro results out b h r hr
    simp only [processSearchPage] at h
    cases hi : processSearchItem search_zenya_documents_cfg item with
    | error e => simp only [hi] at h; exact (Except.noConfusion h)
    | ok ri =>
      simp only [hi] at h
      have hnull := processSearchItem_nonepaths_null hi
      by_cases hcap : capReached mx (results ++ [ri]).length = true
      · rw [if_pos hcap] at h
        cases h
        rcases List.mem_append.mp hr with hm' | hm'
        · exact Or.inl hm'
        · exact Or.inr ((List.mem_singleton.mp hm') ▸ hnull)
      · rw [if_neg hcap] at h
        rcases ih (results ++ [ri]) out b h r hr with hm | hn
        · rcases List.mem_append.mp hm with hm' | hm'
          · exact Or.inl hm'
          · exact Or.inr ((List.mem_singleton.mp hm') ▸ hnull)
        · exact Or.inr hn

theorem collect_mem {mx : Option Nat} :
    ∀ (fuel : Nat) (backend : Json → Except PyErr Json) (token : Json)
      (results out : List Json),
      collect_dedicated_search_results backend search_zenya_documents_cfg mx fuel token results
        = some (.ok out) →
      ∀ r ∈ out, r ∈ results ∨ fourPathFieldsNull r := by
  intro fuel
  induction fuel with
  | zero =>
    intro backend token results out h
    simp [collect_dedicated_search_results] at h
  | succ fuel ih =>
    intro backend token results out h r hr
    unfold collect_dedicated_search_results at h
    cases hb : backend token with
    | error e => simp only [hb] at h; exact (Option.noConfusion h (fun h2 => Except.noConfusion h2))
    | ok data =>
      simp only [hb] at h
      cases hd : data.dictGet "items" (.arr []) with
      | error e => simp only [hd] at h; exact (Option.noConfusion h (fun h2 => Except.noConfusion h2))
      | ok itemsJ =>
        simp only [hd] at h
        cases hp : processSearchPage search_zenya_documents_cfg mx (coerceItems itemsJ) results with
        | error e => simp only [hp] at h; exact (Option.noConfusion h (fun h2 => Except.noConfusion h2))
        | ok pr =>
          obtain ⟨results2, more⟩ := pr
          simp only [hp] at h
          have hpage := processSearchPage_mem (coerceItems itemsJ) results results2 more hp
          cases more with
          | false =>
            simp only [Bool.not_false, if_pos rfl, Option.some.injEq] at h
            cases h
            exact hpage r hr
          | true =>
            simp only [Bool.not_true] at h
            rw [if_neg (by simp)] at h
            cases hfb : data.dictGet "nextContinuationToken" .null with
            | error e => simp only [hfb] at h; exact (Option.noConfusion h (fun h2 => Except.noConfusion h2))
            | ok fallback =>
              simp only [hfb] at h
              cases htc : data.dictGet "continuationToken" fallback with
              | error e => simp only [htc] at h; exact (Option.noConfusion h (fun h2 => Except.noConfusion h2))
              | ok cand =>
                simp only [htc] at h
                cases hty : cand.truthy with
                | false =>
                  rw [hty, if_neg (by simp)] at h
                  cases h
                  exact hpage r hr
                | true =>
                  rw [hty, if_pos rfl] at h
                  rcases ih backend cand results2 out h r hr with hm | hn
                  · exact hpage r hm
                  · exact Or.inr hn

/-- C1: the claim states that every page-walk returns at most `limit` items,
with length `min(total, limit)`.  `ZenyaService.collect_documents` violates
this — and its own docstring ("maximum number of documents to retrieve") —
because it appends a whole 50-item page before checking the cap and then
returns without truncating: against a backend whose first page holds 2 items,
`collect_documents(max_results=1)` returns 2 documents, not min(2,1) = 1. -/
theorem c1_collect_documents_exceeds_limit :
    (collect_documents c1LoadContent (some 1) 3).map (Except.map List.length)
      = some (.ok 2) ∧ ¬ ((2 : Nat) ≤ 1) :=
  ⟨rfl, by decide⟩

/-- C2 is false as stated: in `collect_dedicated_search_results` a page with
zero items that carries a continuation token does not halt the walk.  Against
a backend whose first page is empty but has a token and whose second page has
one record, the walk returns 1 record — not the 0 records collected when the
empty page arrived. -/
theorem c2_empty_page_counterexample :
    (collect_dedicated_search_results c2Backend search_zenya_documents_cfg none 2
        .null []).map (Except.map List.length) = some (.ok 1) ∧ (1 : Nat) ≠ 0 :=
  ⟨rfl, by decide⟩

/-- C2 (amended): a page with zero items halts the walk only together with
the walker's own completion signal.  (a) `_load_paginated_data` returns the
accumulator on an empty page when the status is 200, and (a') only then: a
206 page with zero items instead advances `start` and continues the walk
with the accumulator unchanged; (b) `collect_documents` halts unconditionally
on an empty (falsy) "data" page, returning the documents collected so far;
(c) `collect_dedicated_search_results` halts on an empty page when no truthy
continuation token is present, and (d) only then: an empty page carrying a
truthy token continues the walk at that token with the accumulator
unchanged. -/
theorem c2_empty_page_amended :
    (∀ (backend : Params → HttpResponse) (params : Params) (limit : Option Nat)
       (acc : List Json) (fuel : Nat) (data : Json),
       (backend params).status = 200 → (backend params).body = some data →
       extractItems data = .ok [] → capReached limit acc.length = false →
       load_paginated_data backend (fuel + 1) params limit acc = some (.ok acc)) ∧
    (∀ (backend : Params → HttpResponse) (params : Params) (limit : Option Nat)
       (acc : List Json) (fuel : Nat) (data : Json),
       (backend params).status = 206 → (backend params).body = some data →
       extractItems data = .ok [] → capReached limit acc.length = false →
       load_paginated_data backend (fuel + 1) params limit acc
         = load_paginated_data backend fuel (advanceStart params) limit acc) ∧
    (∀ (loadContent : Nat → Nat → Except PyErr Json) (mx : Option Nat)
       (offset : Nat) (docs : List Json) (fuel : Nat) (data itemsJ : Json),
       loadContent 50 offset = .ok data →
       data.dictGet "data" (.arr []) = .ok itemsJ → itemsJ.truthy = false →
       collect_documents_loop loadContent mx (fuel + 1) offset docs = some (.ok docs)) ∧
    (∀ (backend : Json → Except PyErr Json) (cfg : SearchCfg) (mx : Option Nat)
       (token : Json) (results : List Json) (fuel : Nat) (data fallback cand : Json),
       backend token = .ok data →
       data.dictGet "items" (.arr []) = .ok (.arr []) →
       data.dictGet "nextContinuationToken" .null = .ok fallback →
       data.dictGet "continuationToken" fallback = .ok cand →
       cand.truthy = false →
       collect_dedicated_search_results backend cfg mx (fuel + 1) token results
         = some (.ok results)) ∧
    (∀ (backend : Json → Except PyErr Json) (cfg : SearchCfg) (mx : Option Nat)
       (token : Json) (results : List Json) (fuel : Nat) (data fallback cand : Json),
       backend token = .ok data →
       data.dictGet "items" (.arr []) = .ok (.arr []) →
       data.dictGet "nextContinuationToken" .null = .ok fallback →
       data.dictGet "continuationToken" fallback = .ok cand →
       cand.truthy = true →
       collect_dedicated_search_results backend cfg mx (fuel + 1) token results
         = collect_dedicated_search_results backend cfg mx fuel cand results) := by
  refine ⟨?_, ?_, ?_, ?_, ?_⟩
  · intro backend params limit acc fuel data hs hb hempty hcap
    simp [load_paginated_data, hs, hb, hempty, hcap]
  · intro backend params limit acc fuel data hs hb hempty hcap
    simp [load_paginated_data, hs, hb, hempty, hcap]
  · intro loadContent mx offset docs fuel data itemsJ hlc hdg htr
    simp [collect_documents_loop, hlc, hdg, htr]
  · intro backend cfg mx token results fuel data fallback cand hb hd hfb htc hty
    simp [collect_dedicated_search_results, hb, hd, coerceItems, processSearchPage,
          hfb, htc, hty]
  · intro backend cfg mx token results fuel data fallback cand hb hd hfb htc hty
    simp [collect_dedicated_search_results, hb, hd, coerceItems, processSearchPage,
          hfb, htc, hty]

/-- Witness for the amended C2 at concrete backends: the topdesk walker halts
on an empty 200 page keeping its accumulator but continues past an empty 206
page at the advanced start; the content walker halts on an empty "data"
page; the search walker halts on an empty page with no token but continues
past an empty page whose token is truthy. -/
theorem c2_empty_page_witness :
    load_paginated_data c2wTopdesk 1 [] none [.str "x"] = some (.ok [.str "x"]) ∧
    load_paginated_data c2wTopdesk206 2 [] none []
      = load_paginated_data c2wTopdesk206 1 (advanceStart []) none [] ∧
    collect_documents_loop c2wLoadContent none 1 0 [.str "d"] = some (.ok [.str "d"]) ∧
    collect_dedicated_search_results c2wSearch search_zenya_documents_cfg none 1
      .null [.str "r"] = some (.ok [.str "r"]) ∧
    collect_dedicated_search_results c2Backend search_zenya_documents_cfg none 2
      .null [] = collect_dedicated_search_results c2Backend search_zenya_documents_cfg
        none 1 (.str "t1") [] :=
  ⟨c2_empty_page_amended.1 c2wTopdesk [] none [.str "x"] 0 (.obj [("item", .arr [])])
      rfl rfl rfl rfl,
   c2_empty_page_amended.2.1 c2wTopdesk206 [] none [] 1 (.obj [("item", .arr [])])
      rfl rfl rfl rfl,
   c2_empty_page_amended.2.2.1 c2wLoadContent none 0 [.str "d"] 0
      (.obj [("data", .arr [])]) (.arr []) rfl rfl rfl,
   c2_empty_page_amended.2.2.2.1 c2wSearch search_zenya_documents_cfg none .null
      [.str "r"] 0 (.obj [("items", .arr [])]) .null .null rfl rfl rfl rfl rfl,
   c2_empty_page_amended.2.2.2.2 c2Backend search_zenya_documents_cfg none .null [] 1
      (.obj [("items", .arr []), ("continuationToken", .str "t1")]) .null (.str "t1")
      rfl rfl rfl rfl rfl⟩

/-- C3: `load_knowledge_items` reads the attribute `self.base_url`, which
`TopdeskService.__init__` never sets, so for every argument combination it
raises AttributeError before issuing any HTTP request (request count 0); its
filter line would in any case hit the undefined name `Bone` before the
request.  Consequently the tools `get_knowledge_items`,
`get_public_knowledge_items` and `search_knowledge_items` always return a
one-element error-sentinel list, for every input and every backend. -/
theorem c3_load_knowledge_items_always_errors (svc : TopdeskService)
    (backend : Params → HttpResponse) (limit limit2 limit3 : Int)
    (search_term query fields : Option String) (term : String) :
    load_knowledge_items svc backend limit search_term query fields
      = (.error (.attributeError "base_url"), 0) ∧
    get_knowledge_items svc backend limit
      = (.arr [.obj [("error", .str ("Kon knowledge items niet ophalen: "
          ++ PyErr.toMsg (.attributeError "base_url")))]], 0) ∧
    get_public_knowledge_items svc backend limit2
      = (.arr [.obj [("error", .str ("Kon publieke knowledge items niet ophalen: "
          ++ PyErr.toMsg (.attributeError "base_url")))]], 0) ∧
    search_knowledge_items svc backend term limit3
      = (.arr [.obj [("error", .str ("Kon knowledge items niet doorzoeken met zoekterm '"
          ++ term ++ "': " ++ PyErr.toMsg (.attributeError "base_url")))]], 0) :=
  ⟨rfl, rfl, rfl, rfl⟩

/-- C4: in `_load_paginated_data`, a JSON-parse failure on a 200/206 page
only stops the walk and returns the partial results accumulated so far, with
no exception; any status other than 200/206 raises an error carrying the
status code and the response body, and no partial result reaches the
caller. -/
theorem c4_parse_failure_and_error_status (backend : Params → HttpResponse)
    (params : Params) (limit : Option Nat) (acc : List Json) (fuel : Nat) :
    (((backend params).status = 200 ∨ (backend params).status = 206) →
      (backend params).body = none →
      load_paginated_data backend (fuel + 1) params limit acc = some (.ok acc)) ∧
    ((backend params).status ≠ 200 → (backend params).status ≠ 206 →
      load_paginated_data backend (fuel + 1) params limit acc
        = some (.err (backend params).status (backend params).text)) := by
  constructor
  · intro hs hb
    rcases hs with hs | hs <;> simp [load_paginated_data, hs, hb]
  · intro h1 h2
    simp [load_paginated_data, h1, h2]

/-- Witness for C4: a 206 page whose body fails to parse returns the partial
accumulator; a 500 response raises the error carrying 500 and the body. -/
theorem c4_witness :
    load_paginated_data c4wParseFail 1 [] none [.str "p1"] = some (.ok [.str "p1"]) ∧
    load_paginated_data c4wServerError 1 [] (some 5) [] = some (.err 500 "boom") :=
  ⟨(c4_parse_failure_and_error_status c4wParseFail [] none [.str "p1"] 0).1
      (Or.inr rfl) rfl,
   (c4_parse_failure_and_error_status c4wServerError [] (some 5) [] 0).2
      (by decide) (by decide)⟩

/-- C5 is false in its cap part: neither `load_modification_date` nor
`load_incidents` caps `page_size` client-side.  With a caller-supplied
page_size of 2000, the built parameter dict carries 2000 and the first issued
request (observed through a probe backend that echoes the parameter) carries
2000 > 1000. -/
theorem c5_page_size_counterexample :
    Params.get (load_modification_date_params "creationDate,modificationDate" none 2000 false)
      "page_size" = some (.int 2000) ∧
    load_paginated_data pageSizeProbe 1
      (load_modification_date_params "creationDate,modificationDate" none 2000 false) none []
      = some (.err 999 "2000") ∧
    ¬ ((2000 : Nat) ≤ 1000) :=
  ⟨rfl, rfl, by decide⟩

/-- C5 (amended): `page_size` defaults to 1000 in both signatures, but there
is no client-side cap — whatever page size the caller supplies is stored in
the parameter dict and issued verbatim in the request (observed through the
probe backend); the 1000 maximum is only the backend's documented limit. -/
theorem c5_page_size_amended (fields : String) (query q2 f2 : Option String)
    (page_size : Nat) (public_only : Bool) :
    topdesk_default_page_size = 1000 ∧
    Params.get (load_modification_date_params fields query page_size public_only)
      "page_size" = some (.int page_size) ∧
    Params.get (load_incidents_params q2 f2 page_size) "page_size"
      = some (.int page_size) ∧
    load_paginated_data pageSizeProbe 1
      (load_modification_date_params fields query page_size public_only) none []
      = some (.err 999 (Nat.repr page_size)) ∧
    load_paginated_data pageSizeProbe 1 (load_incidents_params q2 f2 page_size) none []
      = some (.err 999 (Nat.repr page_size)) :=
  ⟨rfl, ldm_params_page_size fields query page_size public_only,
   li_params_page_size q2 f2 page_size,
   probe_first_request _ page_size (ldm_params_page_size fields query page_size public_only),
   probe_first_request _ page_size (li_params_page_size q2 f2 page_size)⟩

/-- C6: the caller query built by `get_incidents_by_caller` for status "open"
is exactly the caller clause and the not-in clause joined by `and`; every
status other than the literal "open" (no validation) yields the
complementary in clause instead. -/
theorem c6_caller_query (caller_email : String) :
    get_incidents_by_caller_query caller_email "open"
      = "caller.emailAddress=='" ++ caller_email
        ++ "' and " ++ "processingStatus.name!=in=(Afgehandeld,Gesloten)" ∧
    ∀ status : String, status ≠ "open" →
      get_incidents_by_caller_query caller_email status
        = "caller.emailAddress=='" ++ caller_email
          ++ "' and " ++ "processingStatus.name==in=(Afgehandeld,Gesloten)" := by
  constructor
  · rfl
  · intro status h
    unfold get_incidents_by_caller_query
    rw [if_neg h]

/-- Witness for C6 at the spec's own example inputs. -/
theorem c6_caller_query_witness :
    get_incidents_by_caller_query "a@b.com" "open"
      = "caller.emailAddress=='" ++ "a@b.com"
        ++ "' and " ++ "processingStatus.name!=in=(Afgehandeld,Gesloten)" ∧
    get_incidents_by_caller_query "a@b.com" "closed"
      = "caller.emailAddress=='" ++ "a@b.com"
        ++ "' and " ++ "processingStatus.name==in=(Afgehandeld,Gesloten)" :=
  ⟨(c6_caller_query "a@b.com").1, (c6_caller_query "a@b.com").2 "closed" (by decide)⟩

/-- C7: a 404 (or 400) on the single-item lookup makes
`load_knowledge_item_by_identifier` return Python None without raising, and
the tool `get_knowledge_item_by_id` then returns the "niet gevonden" error
sentinel; any status other than 200/404/400 raises (and the tool converts
even that into an error record — no exception surfaces to the caller). -/
theorem c7_not_found_sentinel (response : HttpResponse) (identifier : String) :
    ((response.status = 404 ∨ response.status = 400) →
      load_knowledge_item_by_identifier response = .ok none ∧
      get_knowledge_item_by_id response identifier
        = .obj [("error", .str ("Knowledge item met ID " ++ identifier
            ++ " niet gevonden"))]) ∧
    (response.status ≠ 200 → response.status ≠ 404 → response.status ≠ 400 →
      load_knowledge_item_by_identifier response
        = .error (.exc ("API request failed: " ++ toString response.status
            ++ " - " ++ response.text)) ∧
      get_knowledge_item_by_id response identifier
        = .obj [("error", .str ("Kon knowledge item " ++ identifier
            ++ " niet ophalen: " ++ ("API request failed: "
            ++ toString response.status ++ " - " ++ response.text)))]) := by
  constructor
  · intro h
    have hl : load_knowledge_item_by_identifier response = .ok none := by
      unfold load_knowledge_item_by_identifier
      rcases h with h | h <;> rw [h] <;> rfl
    refine ⟨hl, ?_⟩
    unfold get_knowledge_item_by_id
    rw [hl]
  · intro h1 h2 h3
    have hl : load_knowledge_item_by_identifier response
        = .error (.exc ("API request failed: " ++ toString response.status
            ++ " - " ++ response.text)) := by
      unfold load_knowledge_item_by_identifier
      rw [if_neg h1, if_neg h2, if_neg h3]
    refine ⟨hl, ?_⟩
    unfold get_knowledge_item_by_id
    rw [hl]
    rfl

/-- Witness for C7: a concrete 404 yields None and the sentinel; a concrete
500 yields the raised error carrying status and body. -/
theorem c7_not_found_witness :
    load_knowledge_item_by_identifier { status := 404, text := "", body := none }
      = .ok none ∧
    get_knowledge_item_by_id { status := 404, text := "", body := none } "KI-001"
      = .obj [("error", .str ("Knowledge item met ID " ++ "KI-001" ++ " niet gevonden"))] ∧
    load_knowledge_item_by_identifier { status := 500, text := "oops", body := none }
      = .error (.exc ("API request failed: " ++ toString (500 : Nat) ++ " - " ++ "oops")) := by
  have h1 := (c7_not_found_sentinel { status := 404, text := "", body := none } "KI-001").1
    (Or.inl rfl)
  have h2 := (c7_not_found_sentinel { status := 500, text := "oops", body := none } "x").2
    (by decide) (by decide) (by decide)
  exact ⟨h1.1, h1.2, h2.1⟩

/-- C8: `get_nested_value` is a total function (no exception in any case): a
path of length zero — Python None included — yields None; a fully present
path returns the leaf value unchanged; and a nonempty path with any missing
or non-dict intermediate step (no resolution exists) yields None. -/
theorem c8_get_nested_value_total :
    (∀ item : Json, get_nested_value item none = none) ∧
    (∀ item : Json, get_nested_value item (some []) = none) ∧
    (∀ (item : Json) (p : List String) (v : Json),
      ResolvesTo item p v → get_nested_value item (some p) = some v) ∧
    (∀ (item : Json) (p : List String), p ≠ [] →
      (∀ v, ¬ ResolvesTo item p v) → get_nested_value item (some p) = none) := by
  refine ⟨fun item => rfl, fun item => rfl, ?_, ?_⟩
  · intro item p v h
    cases h with
    | last hl => simpa [get_nested_value] using get_nested_value_go_sound (.last hl)
    | step hl tail => simpa [get_nested_value] using get_nested_value_go_sound (.step hl tail)
  · intro item p hne hnr
    cases p with
    | nil => exact absurd rfl hne
    | cons key rest =>
      show get_nested_value_go item (key :: rest) = none
      cases hgo : get_nested_value_go item (key :: rest) with
      | none => rfl
      | some v =>
        exact absurd (get_nested_value_go_complete (key :: rest) item v (by simp) hgo) (hnr v)

/-- Witness for C8: on a concrete nested record, the None path and the empty
path give None, the present path gives the leaf, and a missing key gives
None. -/
theorem c8_get_nested_value_witness :
    get_nested_value c8Sample none = none ∧
    get_nested_value c8Sample (some []) = none ∧
    get_nested_value c8Sample (some ["details", "contact", "email"]) = some (.str "x@y") ∧
    get_nested_value c8Sample (some ["details", "missing"]) = none := by
  refine ⟨c8_get_nested_value_total.1 c8Sample, c8_get_nested_value_total.2.1 c8Sample,
    c8_get_nested_value_total.2.2.1 c8Sample _ _ ?_,
    c8_get_nested_value_total.2.2.2 c8Sample _ (by simp) ?_⟩
  · exact .step rfl (.step rfl (.last rfl))
  · intro v hv
    replace hv : ResolvesTo
        (.obj [("details", .obj [("contact", .obj [("email", .str "x@y")])]),
               ("flat", .str "leaf")]) ["details", "missing"] v := hv
    cases hv with
    | step h tail =>
      simp only [Json.lookup] at h
      rw [if_pos trivial] at h
      cases h
      cases tail with
      | last h2 =>
        rw [show Json.lookup [("contact", Json.obj [("email", Json.str "x@y")])] "missing"
          = none from rfl] at h2
        cases h2
      | step h2 t2 =>
        rw [show Json.lookup [("contact", Json.obj [("email", Json.str "x@y")])] "missing"
          = none from rfl] at h2
        cases h2

/-- C9 is false as stated: the normalized search record does not consist of
the listed logical fields alone — the code adds a seventh key,
`raw_item_details_for_debug`, to every record it builds. -/
theorem c9_exactly_five_fields_counterexample :
    (processSearchItem search_zenya_documents_cfg (.obj [])).map Json.keys
      = .ok ["source_item_id", "title", "type", "doc_type", "doc_type_id",
             "last_modified_date_time", "raw_item_details_for_debug"] ∧
    "raw_item_details_for_debug"
      ∉ ["source_item_id", "title", "type", "doc_type", "doc_type_id",
         "last_modified_date_time"] :=
  ⟨rfl, by decide⟩

/-- C9 (amended): for every dict item it processes, under every extraction
configuration, `collect_dedicated_search_results` produces a record with
exactly seven keys, in order: the six logical fields source_item_id, title,
type, doc_type, doc_type_id and last_modified_date_time, plus the debug key
raw_item_details_for_debug. -/
theorem c9_seven_keys_amended (cfg : SearchCfg) (kvs : List (String × Json)) :
    (processSearchItem cfg (.obj kvs)).map Json.keys
      = .ok ["source_item_id", "title", "type", "doc_type", "doc_type_id",
             "last_modified_date_time", "raw_item_details_for_debug"] := rfl

/-- C10: `search_zenya_documents` reaches `collect_dedicated_search_results`
with the four extraction paths left at their None defaults, and every record
of a successful non-empty search — which the tool returns as-is — therefore
carries null in its type, doc_type, doc_type_id and last_modified_date_time
fields, because path resolution over an absent path returns null. -/
theorem c10_search_zenya_null_fields (backend : Json → Except PyErr Json)
    (query : String) (max_results fuel : Nat) (results : List Json)
    (h : collect_dedicated_search_results backend search_zenya_documents_cfg
      (some max_results) fuel .null [] = some (.ok results)) :
    (results ≠ [] → search_zenya_documents backend query max_results fuel
      = some (.arr results)) ∧
    ∀ r ∈ results, fourPathFieldsNull r := by
  constructor
  · intro hne
    unfold search_zenya_documents
    simp only [h]
    have hie : results.isEmpty = false := by
      cases results with
      | nil => exact absurd rfl hne
      | cons a l => rfl
    simp [hie]
  · intro r hr
    rcases collect_mem fuel backend .null [] results h r hr with hm | hn
    · exact absurd hm (List.not_mem_nil r)
    · exact hn

/-- Witness for C10: against a one-page backend with a single item, the tool
returns exactly the one normalized record, whose four path fields are null. -/
theorem c10_search_zenya_witness :
    fourPathFieldsNull c10Record ∧
    search_zenya_documents c10Backend "pensioen" 10 1 = some (.arr [c10Record]) := by
  have h := c10_search_zenya_null_fields c10Backend "pensioen" 10 1 [c10Record] rfl
  exact ⟨h.2 c10Record (List.Mem.head _), h.1 (by simp)⟩
